import Mathlib

/-!
Shallow embedding of the MyLog logging package (src/log.go).

The package is a process-wide asynchronous logger: producers call
Debug/Info/Warning/Error/Fatal, which build a record and send it on a
bounded channel of capacity 1000; a single background goroutine (outPut)
drains the channel one record at a time, renders a prefix from the
configured format flags and writes the line to the console and/or the
log file.  The embedding models the logger as an explicit state
(`LoggerState`), each Go statement block as a state-transforming
function, and the concurrent system as a small-step reachability
relation (`Reach`) whose emit transition carries the channel-capacity
guard (a full channel blocks the producer, so no emit step exists from
a full-queue state).

History fields `enqHistory` / `drainHistory` and the `diags` list are
specification ghosts: they record, in order, every record ever
enqueued, every record ever drained (with the line rendered for it),
and every diagnostic the package prints with fmt.Println on its error
paths.  File writes are modelled with an environment flag `writeFails`
(the OS may fail the write); a failed write produces no output line,
and — exactly as in the source, which discards fmt.Fprintln's error —
no diagnostic.
-/

set_option maxHeartbeats 1000000

namespace MyLog

/-- Go `type LogLevel uint8` with its five iota constants (src/log.go 14-22). -/
inductive LogLevel where
  | DEBUG
  | INFO
  | WARNING
  | ERROR
  | FATAL
deriving DecidableEq

/-- Go `ONLY_TERMINAL OutputType = iota` : 0 (src/log.go 28). -/
def ONLY_TERMINAL : Nat := 0

/-- Go `ONLY_FILE` : 1 (src/log.go 29). -/
def ONLY_FILE : Nat := 1

/-- Go `BOTH_TERMINAL_AND_FILE = ONLY_TERMINAL | ONLY_FILE` (src/log.go 30). -/
def BOTH_TERMINAL_AND_FILE : Nat := ONLY_TERMINAL ||| ONLY_FILE

/-- Go `LOG_NONE LogFlag = 0b00000000` (src/log.go 37). -/
def LOG_NONE : Nat := 0

/-- Go `LOG_TIME LogFlag = 0b00000001` (src/log.go 38). -/
def LOG_TIME : Nat := 1

/-- Go `LOG_LEVEL LogFlag = 0b00000010` (src/log.go 39). -/
def LOG_LEVEL : Nat := 2

/-- Go `LOG_FILENAME LogFlag = 0b00000100` (src/log.go 40). -/
def LOG_FILENAME : Nat := 4

/-- Go `LOG_FUNCNAME LogFlag = 0b00001000` (src/log.go 41). -/
def LOG_FUNCNAME : Nat := 8

/-- Go `LOG_LINENO LogFlag = 0b00010000` (src/log.go 42). -/
def LOG_LINENO : Nat := 16

/-- Go `LOG_ALL LogFlag = 0b00011111` (src/log.go 43). -/
def LOG_ALL : Nat := 31

/-- Go struct `logMsg` (src/log.go 47-54): one record in the channel. -/
structure logMsg where
  level : LogLevel
  msg : String
  time : String
  fileName : String
  funcName : String
  lineNo : Int
deriving DecidableEq

/-- The LevelStr map built in getInstance (src/log.go 79-85): each label
right-padded with spaces to seven characters. -/
def LevelStrInit : LogLevel → String
  | .DEBUG => "DEBUG  "
  | .INFO => "INFO   "
  | .WARNING => "WARNING"
  | .ERROR => "ERROR  "
  | .FATAL => "FATAL  "

/-- The Logger singleton's state (src/log.go 57-67) together with the
channel contents (`msgQueue`), the once2 gate (`once2Done`), the lines
written so far to each sink, the printed diagnostics, and the
enqueue/drain ghost histories used by the FIFO specification. -/
structure LoggerState where
  Level : LogLevel
  LevelStr : LogLevel → String
  OutputType : Nat
  Flags : Nat
  fileName : String
  filePath : String
  fileObj : Option String
  once2Done : Bool
  msgQueue : List logMsg
  consoleOut : List String
  fileOut : List String
  diags : List String
  enqHistory : List logMsg
  drainHistory : List (logMsg × String)

/-- Go `logger.OutputType&ONLY_TERMINAL == ONLY_TERMINAL` (src/log.go 129). -/
def terminalOn (t : Nat) : Bool := t &&& ONLY_TERMINAL == ONLY_TERMINAL

/-- Go `logger.OutputType&ONLY_FILE == ONLY_FILE` (src/log.go 134, 148). -/
def fileOn (t : Nat) : Bool := t &&& ONLY_FILE == ONLY_FILE

/-- Go `path.Join(logger.filePath, logger.fileName)` (src/log.go 149),
restricted to the joining of a directory and a bare file name. -/
def pathJoin (a b : String) : String := a ++ "/" ++ b

/-- Go method `(l *Logger) formatPrefix(log logMsg) string`
(src/log.go 236-296), statement by statement: the LOG_NONE and LOG_ALL
short-circuits, then the time/level group, then the caller-info group
(note line 273 assigns `funcInfo = " " + log.funcName + "()"` instead of
appending), then the bracket wrapping and the final concatenation. -/
def formatPrefix (l : LoggerState) (log : logMsg) : String :=
  if l.Flags == LOG_NONE then ""
  else if l.Flags == LOG_ALL then
    "[" ++ log.time ++ "] [" ++ l.LevelStr log.level ++ "] [" ++ log.fileName
      ++ " " ++ log.funcName ++ "() line" ++ toString log.lineNo ++ "] "
  else
    let p1 : String := if l.Flags &&& LOG_TIME == LOG_TIME then "[" ++ log.time ++ "]" else ""
    let p2 : String :=
      if l.Flags &&& LOG_LEVEL == LOG_LEVEL then
        if p1.length > 0 then p1 ++ " " ++ ("[" ++ l.LevelStr log.level ++ "]")
        else p1 ++ ("[" ++ l.LevelStr log.level ++ "]")
      else p1
    let p3 : String := if p2.length > 0 then p2 ++ " " else p2
    let f1 : String := if l.Flags &&& LOG_FILENAME == LOG_FILENAME then "" ++ log.fileName else ""
    let f2 : String :=
      if l.Flags &&& LOG_FUNCNAME == LOG_FUNCNAME then
        if f1.length > 0 then " " ++ log.funcName ++ "()"
        else f1 ++ log.funcName ++ "()"
      else f1
    let f3 : String :=
      if l.Flags &&& LOG_LINENO == LOG_LINENO then
        if f2.length > 0 then f2 ++ " " ++ ("line" ++ toString log.lineNo)
        else f2 ++ ("line" ++ toString log.lineNo)
      else f2
    let f4 : String := if f3.length > 0 then "[" ++ f3 ++ "] " else f3
    if p3.length > 0 && f4.length > 0 then p3 ++ "" ++ f4 ++ "" else p3 ++ f4

/-- The ambient data of one emit call: the level passed by the wrapper,
the formatted wall-clock time, the caller info returned by
getFuncCallerInfo, and whether the OS fails the os.OpenFile call should
this emit be the one that performs it. -/
structure EmitEnv where
  level : LogLevel
  msg : String
  time : String
  fileName : String
  funcName : String
  lineNo : Int
  openFails : Bool

/-- The ambient data of one drain iteration: whether the OS fails the
file write of this record. -/
structure DrainEnv where
  writeFails : Bool

/-- The once2.Do block of handleLogMsg (src/log.go 147-158): on the
first emit of the process — whatever its output type — the gate fires;
if file output is enabled at that moment the log file is opened (append
mode, create if absent), recording the joined path in `fileObj`; an open
failure prints one diagnostic and leaves `fileObj` empty.  Once the gate
has fired the block is a no-op forever. -/
def handleOpen (env : EmitEnv) (s : LoggerState) : LoggerState :=
  if s.once2Done then s
  else
    let s1 := { s with once2Done := true }
    if fileOn s.OutputType then
      if env.openFails then { s1 with diags := s1.diags ++ ["open file failed"] }
      else { s1 with fileObj := some (pathJoin s.filePath s.fileName) }
    else s1

/-- The logMsg literal built by handleLogMsg (src/log.go 161-171). -/
def mkRecord (env : EmitEnv) : logMsg :=
  { level := env.level, msg := env.msg, time := env.time,
    fileName := env.fileName, funcName := env.funcName, lineNo := env.lineNo }

/-- Go `l.msg <- log` (src/log.go 174): the record joins the back of the
channel (and the enqueue ghost history). -/
def enqueue (log : logMsg) (s : LoggerState) : LoggerState :=
  { s with msgQueue := s.msgQueue ++ [log], enqHistory := s.enqHistory ++ [log] }

/-- Go method `(l *Logger) handleLogMsg` (src/log.go 144-175): the once2
block, then the record construction, then the channel send. -/
def handleLogMsg (env : EmitEnv) (s : LoggerState) : LoggerState :=
  enqueue (mkRecord env) (handleOpen env s)

/-- Go `func Info(msg interface{})` (src/log.go 193-195). -/
def Info (env : EmitEnv) (s : LoggerState) : LoggerState :=
  handleLogMsg { env with level := LogLevel.INFO } s

/-- Go `func Debug(msg interface{})` (src/log.go 198-200). -/
def Debug (env : EmitEnv) (s : LoggerState) : LoggerState :=
  handleLogMsg { env with level := LogLevel.DEBUG } s

/-- Go `func Warning(msg interface{})` (src/log.go 203-205). -/
def Warning (env : EmitEnv) (s : LoggerState) : LoggerState :=
  handleLogMsg { env with level := LogLevel.WARNING } s

/-- Go `func Fatal(msg interface{})` (src/log.go 208-210). -/
def Fatal (env : EmitEnv) (s : LoggerState) : LoggerState :=
  handleLogMsg { env with level := LogLevel.FATAL } s

/-- Go `func Error(msg interface{})` (src/log.go 213-215). -/
def Error (env : EmitEnv) (s : LoggerState) : LoggerState :=
  handleLogMsg { env with level := LogLevel.ERROR } s

/-- One successful receive iteration of the outPut drain loop
(src/log.go 120-139): take the oldest record off the channel, render
`formatPrefix + msg`, print it to the console when the terminal bit
test passes, and append it to the file when the file bit test passes,
the handle exists and the OS write succeeds.  A nil handle or a failed
write produces nothing — the source discards fmt.Fprintln's result. -/
def outPutStep (e : DrainEnv) (s : LoggerState) : LoggerState :=
  match s.msgQueue with
  | [] => s
  | log :: rest =>
    let content := formatPrefix s log ++ log.msg
    let s1 := { s with msgQueue := rest,
                       drainHistory := s.drainHistory ++ [(log, content)] }
    let s2 := if terminalOn s.OutputType then
        { s1 with consoleOut := s1.consoleOut ++ [content] }
      else s1
    if fileOn s.OutputType then
      match s.fileObj with
      | some _ => if e.writeFails then s2
                  else { s2 with fileOut := s2.fileOut ++ [content] }
      | none => s2
    else s2

/-- Go `func SetOutputType` (src/log.go 178-180). -/
def SetOutputType (t : Nat) (s : LoggerState) : LoggerState := { s with OutputType := t }

/-- Go `func SetFlags` (src/log.go 183-185). -/
def SetFlags (f : Nat) (s : LoggerState) : LoggerState := { s with Flags := f }

/-- Go `func SetFileName` (src/log.go 188-190). -/
def SetFileName (n : String) (s : LoggerState) : LoggerState := { s with fileName := n }

/-- Go `make(chan *logMsg, 1000)` (src/log.go 89): the channel's capacity. -/
def queueCapacity : Nat := 1000

/-- The Logger built by getInstance (src/log.go 74-95) together with the
filePath assignment of init (src/log.go 102-103): level DEBUG, the
LevelStr map, output to both sinks, all format flags, file name
"test.log", an empty channel, no file handle yet, the once2 gate armed,
and empty sinks and histories. -/
def initLogger (wd : String) : LoggerState :=
  { Level := LogLevel.DEBUG
    LevelStr := LevelStrInit
    OutputType := BOTH_TERMINAL_AND_FILE
    Flags := LOG_ALL
    fileName := "test.log"
    filePath := wd
    fileObj := none
    once2Done := false
    msgQueue := []
    consoleOut := []
    fileOut := []
    diags := []
    enqHistory := []
    drainHistory := [] }

/-- A channel send is enabled exactly when the bounded channel has a free
slot; at capacity the sending goroutine blocks. -/
def emitEnabled (s : LoggerState) : Prop := s.msgQueue.length < queueCapacity

/-- The states the system can reach: the initial state, an emit (enabled
only while the channel is below capacity — a producer facing a full
channel blocks and performs no step), a drain-loop iteration, and the
three setters, interleaved arbitrarily. -/
inductive Reach : LoggerState → Prop where
  | init (wd : String) : Reach (initLogger wd)
  | emit (s : LoggerState) (env : EmitEnv) :
      Reach s → s.msgQueue.length < queueCapacity → Reach (handleLogMsg env s)
  | drain (s : LoggerState) (e : DrainEnv) : Reach s → Reach (outPutStep e s)
  | setOutputType (s : LoggerState) (t : Nat) : Reach s → Reach (SetOutputType t s)
  | setFlags (s : LoggerState) (f : Nat) : Reach s → Reach (SetFlags f s)
  | setFileName (s : LoggerState) (n : String) : Reach s → Reach (SetFileName n s)

/-- Go tests `x & ONLY_TERMINAL == ONLY_TERMINAL` with ONLY_TERMINAL = 0,
so the console branch of the drain loop is taken for every output type. -/
lemma terminalOn_true (t : Nat) : terminalOn t = true := by
  simp [terminalOn, ONLY_TERMINAL]

/-- The once2 block never touches the channel, the sinks, the histories,
the format configuration or the output type. -/
lemma handleOpen_frame (env : EmitEnv) (s : LoggerState) :
    (handleOpen env s).msgQueue = s.msgQueue
    ∧ (handleOpen env s).enqHistory = s.enqHistory
    ∧ (handleOpen env s).drainHistory = s.drainHistory
    ∧ (handleOpen env s).consoleOut = s.consoleOut
    ∧ (handleOpen env s).fileOut = s.fileOut
    ∧ (handleOpen env s).Flags = s.Flags
    ∧ (handleOpen env s).OutputType = s.OutputType
    ∧ (handleOpen env s).fileName = s.fileName
    ∧ (handleOpen env s).filePath = s.filePath
    ∧ (handleOpen env s).LevelStr = s.LevelStr
    ∧ (handleOpen env s).Level = s.Level := by
  unfold handleOpen
  cases h1 : s.once2Done <;> cases h2 : fileOn s.OutputType <;>
    cases h3 : env.openFails <;> simp [h1, h2, h3]

/-- One emit appends exactly one record — the one built from the call's
data — to the back of the channel and of the enqueue history, and writes
nothing to either sink. -/
lemma handleLogMsg_spec (env : EmitEnv) (s : LoggerState) :
    (handleLogMsg env s).msgQueue = s.msgQueue ++ [mkRecord env]
    ∧ (handleLogMsg env s).enqHistory = s.enqHistory ++ [mkRecord env]
    ∧ (handleLogMsg env s).drainHistory = s.drainHistory
    ∧ (handleLogMsg env s).consoleOut = s.consoleOut
    ∧ (handleLogMsg env s).fileOut = s.fileOut := by
  obtain ⟨h1, h2, h3, h4, h5, -⟩ := handleOpen_frame env s
  unfold handleLogMsg enqueue
  simp [h1, h2, h3, h4, h5]

/-- A drain iteration on an empty channel leaves the state unchanged
(the select takes its default branch). -/
lemma outPutStep_nil (e : DrainEnv) (s : LoggerState) (h : s.msgQueue = []) :
    outPutStep e s = s := by
  unfold outPutStep
  rw [h]

/-- A drain iteration on a non-empty channel: the head record leaves the
channel, its rendered line is appended to the drain history and to the
console, the file receives the same line or (when the write does not
happen or fails) nothing, and everything else is untouched. -/
lemma outPutStep_cons (e : DrainEnv) (s : LoggerState) (log : logMsg)
    (rest : List logMsg) (h : s.msgQueue = log :: rest) :
    (outPutStep e s).msgQueue = rest
    ∧ (outPutStep e s).drainHistory
        = s.drainHistory ++ [(log, formatPrefix s log ++ log.msg)]
    ∧ (outPutStep e s).consoleOut = s.consoleOut ++ [formatPrefix s log ++ log.msg]
    ∧ ((outPutStep e s).fileOut = s.fileOut
        ∨ (outPutStep e s).fileOut = s.fileOut ++ [formatPrefix s log ++ log.msg])
    ∧ (outPutStep e s).enqHistory = s.enqHistory
    ∧ (outPutStep e s).diags = s.diags
    ∧ (outPutStep e s).fileObj = s.fileObj
    ∧ (outPutStep e s).Flags = s.Flags
    ∧ (outPutStep e s).OutputType = s.OutputType
    ∧ (outPutStep e s).once2Done = s.once2Done := by
  unfold outPutStep
  rw [h]
  cases h2 : fileOn s.OutputType <;> cases h3 : s.fileObj <;>
    cases h4 : e.writeFails <;> simp [h2, h3, h4, terminalOn_true]

/-- Drain iterations never change the file handle. -/
lemma outPutStep_fileObj (e : DrainEnv) (s : LoggerState) :
    (outPutStep e s).fileObj = s.fileObj := by
  cases h : s.msgQueue with
  | nil => rw [outPutStep_nil e s h]
  | cons log rest => exact (outPutStep_cons e s log rest h).2.2.2.2.2.2.1

/-- The rendered prefix depends only on the format flags and the level
label map, not on the rest of the logger state. -/
lemma formatPrefix_congr (l₁ l₂ : LoggerState) (log : logMsg)
    (hf : l₁.Flags = l₂.Flags) (hm : l₁.LevelStr = l₂.LevelStr) :
    formatPrefix l₁ log = formatPrefix l₂ log := by
  unfold formatPrefix
  rw [hf, hm]

/-- FIFO delivery, stated over the ghost histories: the records drained
so far are exactly the oldest prefix of the enqueue history in enqueue
order, the console holds exactly the rendered line of every drained
record in that order, and the file holds an order-preserving
subsequence of those lines (a line is absent only when its file write
did not happen or failed). -/
def fifoInv (s : LoggerState) : Prop :=
  s.enqHistory = s.drainHistory.map Prod.fst ++ s.msgQueue
  ∧ s.consoleOut = s.drainHistory.map Prod.snd
  ∧ s.fileOut.Sublist (s.drainHistory.map Prod.snd)

end MyLog

namespace MyLog

/-- A concrete emit call used by the concrete instances below: an ERROR
message "x" at time "TS" from function Foo on line 42 of bar.go, with
the OS open call succeeding. -/
def sampleEnv : EmitEnv :=
  { level := LogLevel.ERROR, msg := "x", time := "TS", fileName := "bar.go",
    funcName := "Foo", lineNo := 42, openFails := false }

/-- The record sampleEnv builds. -/
def sampleMsg : logMsg := mkRecord sampleEnv

/-- C1: For every sequence of emitted records, the drain loop writes
records to the enabled sinks in exactly the order they were enqueued:
in every reachable state the drained records are the oldest prefix of
the enqueue history in enqueue order, the console lines are exactly the
rendered lines of the drained records in that order, and the file lines
are an order-preserving subsequence of them — one global sequence, no
reordering. -/
theorem reach_fifo_order (s : LoggerState) (h : Reach s) : fifoInv s := by
  induction h with
  | init wd => exact ⟨rfl, rfl, List.Sublist.refl _⟩
  | emit s env hr hlt ih =>
    unfold fifoInv at ih ⊢
    obtain ⟨e1, e2, e3⟩ := ih
    obtain ⟨q, eh, dh, co, fo⟩ := handleLogMsg_spec env s
    refine ⟨?_, ?_, ?_⟩
    · rw [q, eh, dh, e1, List.append_assoc]
    · rw [co, dh, e2]
    · rw [fo, dh]
      exact e3
  | drain s e hr ih =>
    unfold fifoInv at ih ⊢
    obtain ⟨e1, e2, e3⟩ := ih
    cases hq : s.msgQueue with
    | nil => rw [outPutStep_nil e s hq]; exact ⟨e1, e2, e3⟩
    | cons log rest =>
      obtain ⟨q, dh, co, fo, eh, -, -, -, -, -⟩ := outPutStep_cons e s log rest hq
      refine ⟨?_, ?_, ?_⟩
      · rw [eh, q, dh, e1, hq]
        simp
      · rw [co, dh, e2]
        simp
      · rcases fo with h' | h'
        · rw [h', dh]
          simp only [List.map_append, List.map_cons, List.map_nil]
          exact e3.trans (List.sublist_append_left _ _)
        · rw [h', dh]
          simp only [List.map_append, List.map_cons, List.map_nil]
          exact e3.append (List.Sublist.refl _)
  | setOutputType s t hr ih => exact ih
  | setFlags s f hr ih => exact ih
  | setFileName s n hr ih => exact ih

/-- Witness for C1: the FIFO invariant evaluated on the concrete
reachable state obtained by one emit and one drain from the initial
state. -/
theorem reach_fifo_order_witness :
    fifoInv (outPutStep ⟨false⟩ (handleLogMsg sampleEnv (initLogger "d"))) := by
  have h0 : Reach (initLogger "d") := Reach.init "d"
  have h1 : Reach (handleLogMsg sampleEnv (initLogger "d")) :=
    Reach.emit (initLogger "d") sampleEnv h0 (by decide)
  exact reach_fifo_order _ (Reach.drain _ ⟨false⟩ h1)

end MyLog

namespace MyLog

/-- C2: The channel has capacity exactly 1000; at a full channel the
emit transition is disabled (the producer blocks and the record is
neither dropped nor lost), one drain iteration frees a slot and
re-enables it, and the emit that then proceeds enqueues its record at
the back of the enqueue history — so it is delivered in order behind
everything enqueued before it. -/
theorem queue_backpressure (s : LoggerState) (e : DrainEnv) (env : EmitEnv)
    (h : s.msgQueue.length = queueCapacity) :
    queueCapacity = 1000
    ∧ ¬ emitEnabled s
    ∧ emitEnabled (outPutStep e s)
    ∧ (handleLogMsg env (outPutStep e s)).msgQueue.length = queueCapacity
    ∧ (handleLogMsg env (outPutStep e s)).enqHistory
        = (outPutStep e s).enqHistory ++ [mkRecord env] := by
  have hne : s.msgQueue ≠ [] := by
    intro hnil
    rw [hnil] at h
    simp [queueCapacity] at h
  obtain ⟨log, rest, hlr⟩ := List.exists_cons_of_ne_nil hne
  obtain ⟨q, -, -, -, -, -, -, -, -, -⟩ := outPutStep_cons e s log rest hlr
  have hrest : rest.length + 1 = queueCapacity := by
    rw [← h, hlr]
    simp
  obtain ⟨q2, eh2, -, -, -⟩ := handleLogMsg_spec env (outPutStep e s)
  refine ⟨rfl, ?_, ?_, ?_, eh2⟩
  · unfold emitEnabled
    omega
  · unfold emitEnabled
    rw [q]
    omega
  · rw [q2, q]
    simp
    omega

/-- Witness for C2: a state holding exactly 1000 records blocks a
further emit, and one drain iteration unblocks it. -/
theorem queue_backpressure_witness :
    ¬ emitEnabled { initLogger "d" with msgQueue := List.replicate 1000 sampleMsg }
    ∧ emitEnabled (outPutStep ⟨false⟩
        { initLogger "d" with msgQueue := List.replicate 1000 sampleMsg }) := by
  have h : ({ initLogger "d" with
      msgQueue := List.replicate 1000 sampleMsg } : LoggerState).msgQueue.length
      = queueCapacity := by
    show (List.replicate 1000 sampleMsg).length = queueCapacity
    rw [List.length_replicate, queueCapacity]
  obtain ⟨-, h2, h3, -, -⟩ := queue_backpressure _ ⟨false⟩ sampleEnv h
  exact ⟨h2, h3⟩

/-- C3: With flags LOG_ALL the prefix of EVERY record is the fixed
canonical layout `[time] [level-label] [file func() lineN] `; in
particular every record at ERROR from function Foo on line 42 of bar.go
— whatever its time and message — renders as
`[time] [ERROR  ] [bar.go Foo() line42] ` followed by the message. -/
theorem formatPrefix_all_canonical (l : LoggerState)
    (hf : l.Flags = LOG_ALL) (hm : l.LevelStr = LevelStrInit) :
    (∀ m : logMsg, formatPrefix l m
      = "[" ++ m.time ++ "] [" ++ l.LevelStr m.level ++ "] [" ++ m.fileName
        ++ " " ++ m.funcName ++ "() line" ++ toString m.lineNo ++ "] ")
    ∧ ∀ t msg : String,
      formatPrefix l { level := LogLevel.ERROR, msg := msg, time := t, fileName := "bar.go", funcName := "Foo", lineNo := 42 } ++ msg
      = "[" ++ t ++ "] [ERROR  ] [bar.go Foo() line42] " ++ msg := by
  have h1 : ∀ m : logMsg, formatPrefix l m
      = "[" ++ m.time ++ "] [" ++ l.LevelStr m.level ++ "] [" ++ m.fileName
        ++ " " ++ m.funcName ++ "() line" ++ toString m.lineNo ++ "] " := by
    intro m
    unfold formatPrefix
    rw [hf]
    simp [LOG_ALL, LOG_NONE]
  refine ⟨h1, ?_⟩
  intro t msg
  rw [h1 { level := LogLevel.ERROR, msg := msg, time := t, fileName := "bar.go", funcName := "Foo", lineNo := 42 }, hm]
  simp only [LevelStrInit]
  congr 1
  simp only [String.append_assoc]
  congr 2

/-- Witness for C3: the canonical prefix of the concrete sample record
in the initial state (whose flags are LOG_ALL). -/
theorem formatPrefix_all_canonical_witness :
    formatPrefix (initLogger "d") sampleMsg ++ sampleMsg.msg
      = "[" ++ sampleMsg.time ++ "] [ERROR  ] [bar.go Foo() line42] " ++ sampleMsg.msg :=
  (formatPrefix_all_canonical (initLogger "d") rfl rfl).2 "TS" "x"

/-- C5: With flags LOG_NONE the prefix is the empty string, so the line
a drain iteration delivers to the console is exactly the bare message. -/
theorem formatPrefix_none_bare (s : LoggerState) (log : logMsg)
    (rest : List logMsg) (e : DrainEnv) (hf : s.Flags = LOG_NONE) :
    formatPrefix s log = ""
    ∧ (outPutStep e { s with msgQueue := log :: rest }).consoleOut
        = s.consoleOut ++ [log.msg] := by
  have h1 : formatPrefix s log = "" := by
    unfold formatPrefix
    rw [hf]
    simp [LOG_NONE]
  refine ⟨h1, ?_⟩
  obtain ⟨-, -, co, -⟩ := outPutStep_cons e { s with msgQueue := log :: rest } log rest rfl
  rw [co]
  have h2 : formatPrefix { s with msgQueue := log :: rest } log = "" :=
    (formatPrefix_congr _ s log rfl rfl).trans h1
  rw [h2]
  simp

/-- Witness for C5: emitting "x" at INFO with flags LOG_NONE yields the
console line `x`. -/
theorem formatPrefix_none_bare_witness :
    formatPrefix { initLogger "d" with Flags := LOG_NONE }
        { sampleMsg with level := LogLevel.INFO } = ""
    ∧ (outPutStep ⟨false⟩
        { { initLogger "d" with Flags := LOG_NONE } with
            msgQueue := { sampleMsg with level := LogLevel.INFO } :: [] }).consoleOut
      = ({ initLogger "d" with Flags := LOG_NONE } : LoggerState).consoleOut
        ++ [({ sampleMsg with level := LogLevel.INFO } : logMsg).msg] :=
  formatPrefix_none_bare { initLogger "d" with Flags := LOG_NONE }
    { sampleMsg with level := LogLevel.INFO } [] ⟨false⟩ rfl

end MyLog

namespace MyLog

/-- A drain iteration that takes the file branch with no file handle
(the Go Fprintln on a nil file) writes nothing to the file. -/
lemma outPutStep_noHandle (e : DrainEnv) (s : LoggerState) (log : logMsg)
    (rest : List logMsg) (h : s.msgQueue = log :: rest) (ho : s.fileObj = none) :
    (outPutStep e s).fileOut = s.fileOut := by
  unfold outPutStep
  rw [h]
  cases h2 : fileOn s.OutputType <;> simp [h2, ho, terminalOn_true]

/-- A drain iteration whose file write fails writes nothing to the file. -/
lemma outPutStep_writeFail (e : DrainEnv) (s : LoggerState) (log : logMsg)
    (rest : List logMsg) (p : String) (h : s.msgQueue = log :: rest)
    (ho : s.fileObj = some p) (hw : e.writeFails = true) :
    (outPutStep e s).fileOut = s.fileOut := by
  unfold outPutStep
  rw [h]
  cases h2 : fileOn s.OutputType <;> simp [h2, ho, hw, terminalOn_true]

/-- C4 (evaluation at the failing input): with flags
LOG_FILENAME ||| LOG_FUNCNAME — neither LOG_NONE nor LOG_ALL — the
caller-info group of the sample record (file bar.go, function Foo) is
`[ Foo()] `: line 273 of src/log.go assigns instead of appending, so
the file name is dropped and a stray leading space remains, contrary
to the claimed `filename, space, funcname()` composition. -/
theorem formatPrefix_filename_dropped_eval :
    formatPrefix { initLogger "d" with Flags := LOG_FILENAME ||| LOG_FUNCNAME } sampleMsg
      = "[ Foo()] "
    ∧ formatPrefix { initLogger "d" with Flags := LOG_FILENAME ||| LOG_FUNCNAME } sampleMsg
      ≠ "[bar.go Foo()] "
    ∧ LOG_FILENAME ||| LOG_FUNCNAME ≠ LOG_NONE
    ∧ LOG_FILENAME ||| LOG_FUNCNAME ≠ LOG_ALL
    ∧ sampleMsg.fileName = "bar.go"
    ∧ sampleMsg.funcName = "Foo" := by
  refine ⟨rfl, ?_, by decide, by decide, rfl, rfl⟩
  intro h
  rw [show formatPrefix { initLogger "d" with
    Flags := LOG_FILENAME ||| LOG_FUNCNAME } sampleMsg = "[ Foo()] " from rfl] at h
  simp at h

/-- C6 (counterexample to the claim as stated): a trace in which the
first emit happens under terminal-only output (the once2 gate fires and
opens nothing) and a later emit is the first record that requires file
output — yet no file is opened for it (fileObj stays none and no
open-failure diagnostic was printed either). -/
theorem fileOpen_not_on_first_required_cex :
    fileOn (SetOutputType ONLY_TERMINAL (initLogger "d")).OutputType = false
    ∧ fileOn (SetOutputType BOTH_TERMINAL_AND_FILE
        (handleLogMsg sampleEnv (SetOutputType ONLY_TERMINAL (initLogger "d")))).OutputType
      = true
    ∧ (handleLogMsg sampleEnv (SetOutputType BOTH_TERMINAL_AND_FILE
        (handleLogMsg sampleEnv (SetOutputType ONLY_TERMINAL (initLogger "d"))))).fileObj
      = none
    ∧ (handleLogMsg sampleEnv (SetOutputType BOTH_TERMINAL_AND_FILE
        (handleLogMsg sampleEnv (SetOutputType ONLY_TERMINAL (initLogger "d"))))).diags
      = (initLogger "d").diags :=
  ⟨rfl, rfl, rfl, rfl⟩

/-- C6 (amended): the open attempt is gated to the first emit call of
the process, whatever that emit's output type: if file output is
enabled then (the OS open succeeding) the handle on the path joined
from the current directory and file name is stored; every emit consumes
the gate; once the gate is consumed no emit changes the handle, even
after SetFileName (which changes only the configured name); SetFileName
and drain iterations never touch the handle. -/
theorem fileOpen_once_amended (env : EmitEnv) (s : LoggerState) (n : String)
    (e : DrainEnv) :
    (handleLogMsg { env with openFails := false }
        { s with once2Done := false, OutputType := BOTH_TERMINAL_AND_FILE }).fileObj
      = some (pathJoin s.filePath s.fileName)
    ∧ (handleLogMsg env s).once2Done = true
    ∧ (handleLogMsg env { s with once2Done := true }).fileObj = s.fileObj
    ∧ (handleLogMsg env (SetFileName n { s with once2Done := true })).fileObj = s.fileObj
    ∧ (SetFileName n s).fileObj = s.fileObj
    ∧ (SetFileName n { s with once2Done := true }).fileName = n
    ∧ (outPutStep e s).fileObj = s.fileObj := by
  refine ⟨?_, ?_, ?_, ?_, rfl, rfl, outPutStep_fileObj e s⟩
  · unfold handleLogMsg enqueue handleOpen
    simp [fileOn, BOTH_TERMINAL_AND_FILE, ONLY_TERMINAL, ONLY_FILE]
  · unfold handleLogMsg enqueue handleOpen
    cases h1 : s.once2Done <;> cases h2 : fileOn s.OutputType <;>
      cases h3 : env.openFails <;> simp [h1, h2, h3]
  · unfold handleLogMsg enqueue handleOpen
    simp
  · unfold handleLogMsg enqueue handleOpen SetFileName
    simp

/-- C7: If the first open attempt fails, exactly one diagnostic is
printed at that emit and the gate is consumed with no handle stored;
thereafter no emit prints another open diagnostic or creates a handle,
drain iterations write nothing to the file while still delivering every
record's line to the console, and drains print no diagnostics — the
process degrades to console-only without crashing (every transition is
a total function). -/
theorem openFail_reported_once_console_continues
    (env env2 : EmitEnv) (s s2 : LoggerState) (e : DrainEnv)
    (log : logMsg) (rest : List logMsg) :
    (handleLogMsg { env with openFails := true }
        { s with once2Done := false, fileObj := none,
                 OutputType := BOTH_TERMINAL_AND_FILE }).diags
      = s.diags ++ ["open file failed"]
    ∧ (handleLogMsg { env with openFails := true }
        { s with once2Done := false, fileObj := none,
                 OutputType := BOTH_TERMINAL_AND_FILE }).fileObj = none
    ∧ (handleLogMsg { env with openFails := true }
        { s with once2Done := false, fileObj := none,
                 OutputType := BOTH_TERMINAL_AND_FILE }).once2Done = true
    ∧ (handleLogMsg env2 { s2 with once2Done := true }).diags = s2.diags
    ∧ (handleLogMsg env2 { s2 with once2Done := true }).fileObj = s2.fileObj
    ∧ (outPutStep e { s2 with fileObj := none, msgQueue := log :: rest }).fileOut
      = s2.fileOut
    ∧ (outPutStep e { s2 with fileObj := none, msgQueue := log :: rest }).consoleOut
      = s2.consoleOut
        ++ [formatPrefix { s2 with fileObj := none, msgQueue := log :: rest } log
            ++ log.msg]
    ∧ (outPutStep e { s2 with fileObj := none, msgQueue := log :: rest }).diags
      = s2.diags := by
  obtain ⟨-, -, co, -, -, dg, -⟩ :=
    outPutStep_cons e { s2 with fileObj := none, msgQueue := log :: rest } log rest rfl
  refine ⟨?_, ?_, ?_, ?_, ?_, ?_, co, dg⟩
  · unfold handleLogMsg enqueue handleOpen
    simp [fileOn, BOTH_TERMINAL_AND_FILE, ONLY_TERMINAL, ONLY_FILE]
  · unfold handleLogMsg enqueue handleOpen
    simp [fileOn, BOTH_TERMINAL_AND_FILE, ONLY_TERMINAL, ONLY_FILE]
  · unfold handleLogMsg enqueue handleOpen
    simp [fileOn, BOTH_TERMINAL_AND_FILE, ONLY_TERMINAL, ONLY_FILE]
  · unfold handleLogMsg enqueue handleOpen
    simp
  · unfold handleLogMsg enqueue handleOpen
    simp
  · exact outPutStep_noHandle e _ log rest rfl rfl

end MyLog

namespace MyLog

/-- C8 (counterexample to "the failure is reported"): a concrete state
with file output enabled, a valid handle and one queued record, whose
file write fails — the drain iteration prints no diagnostic at all
(diags stays empty), the line is lost from the file, and the record is
consumed.  src/log.go line 135 discards fmt.Fprintln's error. -/
theorem fileWrite_fail_unreported_cex :
    fileOn (initLogger "d").OutputType = true
    ∧ (outPutStep ⟨true⟩ { initLogger "d" with msgQueue := [sampleMsg], fileObj := some (pathJoin "d" "test.log") }).diags = []
    ∧ (outPutStep ⟨true⟩ { initLogger "d" with msgQueue := [sampleMsg], fileObj := some (pathJoin "d" "test.log") }).fileOut = []
    ∧ (outPutStep ⟨true⟩ { initLogger "d" with msgQueue := [sampleMsg], fileObj := some (pathJoin "d" "test.log") }).msgQueue = [] :=
  ⟨rfl, rfl, rfl, rfl⟩

/-- C8 (amended): when the file write of a record fails, the failure is
silently discarded — no diagnostic is printed and the file is left
unchanged — and the drain loop continues: the record leaves the queue,
its line is still delivered to the console, and the drain history
advances. -/
theorem fileWrite_fail_silent (s : LoggerState) (log : logMsg)
    (rest : List logMsg) (p : String) :
    (outPutStep ⟨true⟩ { s with msgQueue := log :: rest, fileObj := some p, OutputType := BOTH_TERMINAL_AND_FILE }).diags = s.diags
    ∧ (outPutStep ⟨true⟩ { s with msgQueue := log :: rest, fileObj := some p, OutputType := BOTH_TERMINAL_AND_FILE }).fileOut = s.fileOut
    ∧ (outPutStep ⟨true⟩ { s with msgQueue := log :: rest, fileObj := some p, OutputType := BOTH_TERMINAL_AND_FILE }).msgQueue = rest
    ∧ (outPutStep ⟨true⟩ { s with msgQueue := log :: rest, fileObj := some p, OutputType := BOTH_TERMINAL_AND_FILE }).consoleOut
      = s.consoleOut ++ [formatPrefix { s with msgQueue := log :: rest, fileObj := some p, OutputType := BOTH_TERMINAL_AND_FILE } log ++ log.msg]
    ∧ (outPutStep ⟨true⟩ { s with msgQueue := log :: rest, fileObj := some p, OutputType := BOTH_TERMINAL_AND_FILE }).drainHistory
      = s.drainHistory ++ [(log, formatPrefix { s with msgQueue := log :: rest, fileObj := some p, OutputType := BOTH_TERMINAL_AND_FILE } log ++ log.msg)] := by
  obtain ⟨q, dh, co, -, -, dg, -⟩ :=
    outPutStep_cons ⟨true⟩ { s with msgQueue := log :: rest, fileObj := some p, OutputType := BOTH_TERMINAL_AND_FILE } log rest rfl
  exact ⟨dg, outPutStep_writeFail ⟨true⟩ _ log rest p rfl rfl rfl, q, co, dh⟩

/-- C9: all five level labels of the getInstance map have the same
length as "WARNING" (seven characters), each being the level name
right-padded with spaces. -/
theorem levelLabels_fixed_width (wd : String) :
    (∀ lv : LogLevel, ((initLogger wd).LevelStr lv).length = "WARNING".length)
    ∧ (initLogger wd).LevelStr LogLevel.DEBUG = "DEBUG" ++ "  "
    ∧ (initLogger wd).LevelStr LogLevel.INFO = "INFO" ++ "   "
    ∧ (initLogger wd).LevelStr LogLevel.WARNING = "WARNING" ++ ""
    ∧ (initLogger wd).LevelStr LogLevel.ERROR = "ERROR" ++ "  "
    ∧ (initLogger wd).LevelStr LogLevel.FATAL = "FATAL" ++ "  " := by
  refine ⟨fun lv => ?_, rfl, rfl, rfl, rfl, rfl⟩
  cases lv <;> rfl

/-- C10: the Level field (the configured threshold) is never consulted:
emit and drain steps commute with changing it, the rendered prefix does
not depend on it, every wrapper Debug/Info/Warning/Error/Fatal enqueues
exactly one record built from its call, a record is always appended to
the queue, and the drain loop renders whatever record is at the head —
no record is ever filtered out by level. -/
theorem level_threshold_unused (lv : LogLevel) (env : EmitEnv) (e : DrainEnv)
    (s : LoggerState) (log : logMsg) (rest : List logMsg) :
    handleLogMsg env { s with Level := lv } = { handleLogMsg env s with Level := lv }
    ∧ outPutStep e { s with Level := lv } = { outPutStep e s with Level := lv }
    ∧ formatPrefix { s with Level := lv } log = formatPrefix s log
    ∧ (Debug env s).enqHistory
      = s.enqHistory ++ [mkRecord { env with level := LogLevel.DEBUG }]
    ∧ (Info env s).enqHistory
      = s.enqHistory ++ [mkRecord { env with level := LogLevel.INFO }]
    ∧ (Warning env s).enqHistory
      = s.enqHistory ++ [mkRecord { env with level := LogLevel.WARNING }]
    ∧ (Error env s).enqHistory
      = s.enqHistory ++ [mkRecord { env with level := LogLevel.ERROR }]
    ∧ (Fatal env s).enqHistory
      = s.enqHistory ++ [mkRecord { env with level := LogLevel.FATAL }]
    ∧ (handleLogMsg env s).msgQueue.length = s.msgQueue.length + 1
    ∧ (outPutStep e { s with msgQueue := log :: rest }).drainHistory
      = s.drainHistory
        ++ [(log, formatPrefix { s with msgQueue := log :: rest } log ++ log.msg)] := by
  have hfp : ∀ (l₂ : LoggerState) (m : logMsg), l₂.Flags = s.Flags →
      l₂.LevelStr = s.LevelStr → formatPrefix l₂ m = formatPrefix s m :=
    fun l₂ m h1 h2 => formatPrefix_congr l₂ s m h1 h2
  refine ⟨?_, ?_, hfp _ log rfl rfl, ?_, ?_, ?_, ?_, ?_, ?_, ?_⟩
  · unfold handleLogMsg enqueue handleOpen mkRecord
    cases h1 : s.once2Done <;> cases h2 : fileOn s.OutputType <;>
      cases h3 : env.openFails <;> simp [h1, h2, h3]
  · unfold outPutStep
    cases hq : s.msgQueue with
    | nil => simp [hq]
    | cons log2 rest2 =>
      cases h2 : fileOn s.OutputType <;> cases h3 : s.fileObj <;>
        cases h4 : e.writeFails <;>
          simp [hq, h2, h3, h4, terminalOn_true, hfp]
  · exact (handleLogMsg_spec { env with level := LogLevel.DEBUG } s).2.1
  · exact (handleLogMsg_spec { env with level := LogLevel.INFO } s).2.1
  · exact (handleLogMsg_spec { env with level := LogLevel.WARNING } s).2.1
  · exact (handleLogMsg_spec { env with level := LogLevel.ERROR } s).2.1
  · exact (handleLogMsg_spec { env with level := LogLevel.FATAL } s).2.1
  · rw [(handleLogMsg_spec env s).1]
    simp
  · exact (outPutStep_cons e { s with msgQueue := log :: rest } log rest rfl).2.1

end MyLog
